import Mathlib

/-!
Shallow embedding of the NexusPay SVM programs (wallet, entry point,
paymaster, bridge) and proofs of the specification claims about them.

Conventions used throughout:
  - `u64` fields become `Nat` (the claims under study never exercise wrap-around);
    `i64` timestamps become `Int`.
  - 32-byte public keys and 64-byte signatures are opaque byte lists.
  - An Anchor instruction handler mutating accounts through `&mut` references
    is embedded as a state transformer returning the account state as mutated
    by the handler body together with an optional error; mutations performed
    before an early `require!` exit are visible in the returned state, exactly
    as they are on the in-memory account struct inside the Rust function.
  - The SHA-256 primitive (`hashv`) and the signature-check primitive are
    external collaborators (the source stubs the latter to `Ok(true)`), so the
    embedding takes them as explicit function parameters; the concrete stub
    from the source is also defined and used to instantiate the program.
-/

namespace NexusSpec

/-- Opaque 32-byte public key, kept as its byte list. -/
abbrev Pubkey := List Nat

/-- Opaque 64-byte signature, kept as its byte list. -/
abbrev Sig := List Nat

/-- `u64::to_le_bytes`: the eight little-endian bytes of a 64-bit value. -/
def le64 (n : Nat) : List Nat :=
  [n % 256, n / 256 % 256, n / 256 ^ 2 % 256, n / 256 ^ 3 % 256,
   n / 256 ^ 4 % 256, n / 256 ^ 5 % 256, n / 256 ^ 6 % 256, n / 256 ^ 7 % 256]

/-- `u64::from_le_bytes`: read a little-endian byte list back into a value. -/
def u64_from_le (bs : List Nat) : Nat :=
  bs.foldr (fun b acc => b + 256 * acc) 0

/-- `iter_mut().find(p)` followed by a mutation of the found element:
update the first element satisfying `p`, leave the rest unchanged. -/
def update_first (p : α → Bool) (f : α → α) : List α → List α
  | [] => []
  | x :: xs => if p x then f x :: xs else x :: update_first p f xs

/-- The `UserOperation` struct; `programs/wallet` and `programs/entry_point`
each declare this structure with exactly the same fields, so one Lean
structure serves both programs. -/
structure UserOperation where
  sender : Pubkey
  nonce : Nat
  init_code : List Nat
  call_data : List Nat
  call_gas_limit : Nat
  verification_gas_limit : Nat
  pre_verification_gas : Nat
  max_fee_per_gas : Nat
  max_priority_fee_per_gas : Nat
  paymaster_and_data : List Nat
  signature : Sig
deriving DecidableEq, Repr

namespace NexusWallet

/-- `WalletError` from `programs/wallet/src/lib.rs`. -/
inductive WalletError where
  | WalletFrozen
  | InvalidNonce
  | DailyLimitExceeded
  | InvalidSignature
  | TooManyGuardians
  | GuardianAlreadyExists
  | GuardianNotFound
  | UnauthorizedGuardian
  | RecoveryInProgress
  | NoRecoveryInProgress
  | AlreadyApproved
  | InsufficientGas
deriving DecidableEq, Repr

/-- `RecoveryRequest` account data. -/
structure RecoveryRequest where
  new_owner : Pubkey
  guardian_approvals : List Pubkey
  initiated_at : Int
deriving DecidableEq, Repr

/-- The `Wallet` account. -/
structure Wallet where
  owner : Pubkey
  recovery_hash : List Nat
  daily_limit : Nat
  daily_spent : Nat
  last_reset : Int
  nonce : Nat
  initialized : Bool
  is_frozen : Bool
  guardians : List Pubkey
  pending_recovery : Option RecoveryRequest
deriving DecidableEq, Repr

/-- `PaymasterData` argument of `execute_user_operation`. -/
structure PaymasterData where
  paymaster : Pubkey
  token_mint : Option Pubkey
  max_cost : Nat
  signature : Sig
deriving DecidableEq, Repr

/-- `calculate_user_op_hash` (wallet program): `hashv` over
`sender ‖ le64(nonce) ‖ call_data ‖ le64(call_gas_limit) ‖
le64(max_fee_per_gas)`; `hashv` hashes the concatenation of its slices, and
the SHA-256 primitive itself is the abstract parameter `H`. -/
def calculate_user_op_hash (H : List Nat → List Nat) (op : UserOperation) : List Nat :=
  H (op.sender ++ le64 op.nonce ++ op.call_data ++
     le64 op.call_gas_limit ++ le64 op.max_fee_per_gas)

/-- The wallet program's `verify_signature` helper, exactly as in the source:
a stub that accepts every signature. -/
def verify_signature (_message : List Nat) (_signature : Sig)
    (_expected_pubkey : Pubkey) : Bool :=
  true

/-- Tail of `execute_user_operation` after the daily-limit block: compute the
canonical hash and check the owner signature (`vf` is the verification
primitive; the deployed program instantiates it with `verify_signature`). -/
def finish_user_operation (H : List Nat → List Nat)
    (vf : List Nat → Sig → Pubkey → Bool) (wallet : Wallet)
    (user_op : UserOperation) : Wallet × Option WalletError :=
  let user_op_hash := calculate_user_op_hash H user_op
  if vf user_op_hash user_op.signature wallet.owner then
    (wallet, none)
  else
    (wallet, some .InvalidSignature)

/-- `execute_user_operation`: frozen check, nonce check, nonce increment,
daily-limit window for non-paymaster operations, then signature check.
`now` is `Clock::get()?.unix_timestamp`. -/
def execute_user_operation (H : List Nat → List Nat)
    (vf : List Nat → Sig → Pubkey → Bool) (wallet : Wallet)
    (user_op : UserOperation) (paymaster_data : Option PaymasterData)
    (now : Int) : Wallet × Option WalletError :=
  if wallet.is_frozen then
    (wallet, some .WalletFrozen)
  else if user_op.nonce = wallet.nonce then
    let wallet := { wallet with nonce := wallet.nonce + 1 }
    match paymaster_data with
    | none =>
      let wallet :=
        if now - wallet.last_reset ≥ 86400 then
          { wallet with daily_spent := 0, last_reset := now }
        else wallet
      if wallet.daily_spent + user_op.max_fee_per_gas ≤ wallet.daily_limit then
        let wallet :=
          { wallet with daily_spent := wallet.daily_spent + user_op.max_fee_per_gas }
        finish_user_operation H vf wallet user_op
      else
        (wallet, some .DailyLimitExceeded)
    | some _ => finish_user_operation H vf wallet user_op
  else
    (wallet, some .InvalidNonce)

/-- The rolling-window reset step inside `execute_user_operation`: when a
full day has passed since `last_reset`, clear `daily_spent` and restart the
window at `now`; otherwise leave the wallet unchanged. Exposed separately so
the daily-limit claims can name the post-reset state. -/
def reset_window (wallet : Wallet) (now : Int) : Wallet :=
  if now - wallet.last_reset ≥ 86400 then
    { wallet with daily_spent := 0, last_reset := now }
  else wallet

/-- `approve_recovery`: guardian-gated approval append with majority quorum
`guardians_count / 2 + 1`; at quorum the owner is replaced, the pending
recovery cleared and the nonce bumped once more. -/
def approve_recovery (wallet : Wallet) (guardian : Pubkey) :
    Wallet × Option WalletError :=
  if ¬ wallet.guardians.contains guardian then
    (wallet, some .UnauthorizedGuardian)
  else
    let guardians_count := wallet.guardians.length
    match wallet.pending_recovery with
    | none => (wallet, some .NoRecoveryInProgress)
    | some recovery =>
      if recovery.guardian_approvals.contains guardian then
        (wallet, some .AlreadyApproved)
      else
        let recovery :=
          { recovery with
              guardian_approvals := recovery.guardian_approvals ++ [guardian] }
        let required_approvals := guardians_count / 2 + 1
        let current_approvals := recovery.guardian_approvals.length
        if current_approvals ≥ required_approvals then
          ({ wallet with
               owner := recovery.new_owner
               pending_recovery := none
               nonce := wallet.nonce + 1 }, none)
        else
          ({ wallet with pending_recovery := some recovery }, none)

end NexusWallet

namespace NexusEntryPoint

/-- `EntryPointError` from `programs/entry_point/src/lib.rs`. -/
inductive EntryPointError where
  | InvalidUnstakeDelay
  | WithdrawTimeNotReached
  | InvalidUserOperation
  | InsufficientGas
  | PaymasterValidationFailed
  | InvalidSignature
  | InvalidNonce
deriving DecidableEq, Repr

/-- `ValidationResult` returned by the entry point's pre-filter. -/
inductive ValidationResult where
  | Valid
  | InvalidSignature
  | InvalidNonce
  | InsufficientFunds
  | PaymasterRejected
  | GasLimitExceeded
deriving DecidableEq, Repr

/-- The `EntryPoint` account. -/
structure EntryPoint where
  authority : Pubkey
  total_operations : Nat
  total_paymasters : Nat
  min_stake : Nat
  unstake_delay : Int
deriving DecidableEq, Repr

/-- `UserOperationEvent` as emitted per operation by `handle_ops` (the hash
field is omitted here; success flag and gas figures are the observables the
claims speak about, and events are kept in batch order). -/
structure UserOperationEvent where
  sender : Pubkey
  nonce : Nat
  success : Bool
  actual_gas_cost : Nat
  actual_gas_used : Nat
deriving DecidableEq, Repr

/-- `calculate_user_op_hash` (entry-point program): textually the same
computation as the wallet's helper, compiled in its own crate. -/
def calculate_user_op_hash (H : List Nat → List Nat) (op : UserOperation) : List Nat :=
  H (op.sender ++ le64 op.nonce ++ op.call_data ++
     le64 op.call_gas_limit ++ le64 op.max_fee_per_gas)

/-- `validate_user_operation`: the cheap pre-filter. Note that in the source
every branch returns `Ok(...)` — the failure classifications are values of
the `Ok` payload, never an `Err`. -/
def validate_user_operation (user_op : UserOperation) :
    Except EntryPointError ValidationResult :=
  if user_op.call_gas_limit = 0 then
    .ok .GasLimitExceeded
  else if user_op.max_fee_per_gas = 0 then
    .ok .InsufficientFunds
  else
    .ok .Valid

/-- `process_user_operation`: runs the pre-filter with `?` (which only
propagates `Err`, and `validate_user_operation` never produces one, so its
classification is discarded) and reports `call_gas_limit` as the gas used. -/
def process_user_operation (user_op : UserOperation) (_bundler : Pubkey) :
    Except EntryPointError Nat := do
  let _ ← validate_user_operation user_op
  pure user_op.call_gas_limit

/-- One iteration of the `handle_ops` batch loop, threading
`(successful_ops, total_gas_used, events)`. -/
def handle_ops_step (bundler : Pubkey) (acc : Nat × Nat × List UserOperationEvent)
    (user_op : UserOperation) : Nat × Nat × List UserOperationEvent :=
  match process_user_operation user_op bundler with
  | .ok gas_used =>
    (acc.1 + 1, acc.2.1 + gas_used,
     acc.2.2 ++ [⟨user_op.sender, user_op.nonce, true, gas_used, gas_used⟩])
  | .error _ =>
    (acc.1, acc.2.1,
     acc.2.2 ++ [⟨user_op.sender, user_op.nonce, false, 0, 0⟩])

/-- `handle_ops`: iterate the batch, count successes and gas, emit one event
per operation, then add the whole batch size to `total_operations`. Returns
the updated entry point together with
`(successful_ops, total_gas_used, events)`. -/
def handle_ops (entry_point : EntryPoint) (user_ops : List UserOperation)
    (bundler : Pubkey) : EntryPoint × Nat × Nat × List UserOperationEvent :=
  let r := user_ops.foldl (handle_ops_step bundler) (0, 0, [])
  ({ entry_point with
       total_operations := entry_point.total_operations + user_ops.length }, r)

end NexusEntryPoint

namespace NexusPaymaster

/-- `PaymasterError` from `programs/paymaster/src/lib.rs`. -/
inductive PaymasterError where
  | PaymasterInactive
  | TooManyTokens
  | TokenNotSupported
  | InsufficientTokenBalance
  | RateLimitExceeded
  | UserNotAllowed
  | CostTooHigh
  | InvalidPaymasterData
  | MissingTokenAccount
  | MissingDestination
  | MissingTokenProgram
  | OraclePriceUnavailable
deriving DecidableEq, Repr

/-- `PaymentMethod`: sponsored, or token payment with mint and cap. -/
inductive PaymentMethod where
  | Sponsored
  | TokenPayment (token_mint : Pubkey) (max_token_amount : Nat)
deriving DecidableEq, Repr

/-- `SupportedToken` entry of a paymaster. -/
structure SupportedToken where
  mint : Pubkey
  rate_per_lamport : Nat
  oracle : Option Pubkey
  is_active : Bool
  total_collected : Nat
deriving DecidableEq, Repr

/-- `PaymasterConfig`. -/
structure PaymasterConfig where
  max_operations_per_hour : Nat
  max_cost_per_operation : Nat
  allowed_users : List Pubkey
  rate_limit_per_user : Nat
  require_pre_deposit : Bool
deriving DecidableEq, Repr

/-- The `Paymaster` account. -/
structure Paymaster where
  owner : Pubkey
  entry_point : Pubkey
  config : PaymasterConfig
  total_sponsored : Nat
  total_operations : Nat
  is_active : Bool
  supported_tokens : List SupportedToken
deriving DecidableEq, Repr

/-- `PaymentContext` handed from validation to `post_op` (it travels
serialized in the source; the embedding keeps the decoded record). -/
structure PaymentContext where
  payment_method : PaymentMethod
  user : Pubkey
  pre_charge : Nat
  token_account : Option Pubkey
deriving DecidableEq, Repr

/-- `PostOpMode`. -/
inductive PostOpMode where
  | OpSucceeded
  | OpReverted
  | PostOpReverted
deriving DecidableEq, Repr

/-- `parse_paymaster_data`: empty data is `Sponsored`; otherwise the first
byte selects the method (0 = Sponsored, 1 = TokenPayment with
`mint = data[1..33]` and `max_token_amount = le64(data[33..41])`, rejecting
buffers shorter than 41 bytes); any other tag is rejected. -/
def parse_paymaster_data (data : List Nat) : Except PaymasterError PaymentMethod :=
  match data with
  | [] => .ok .Sponsored
  | b :: rest =>
    if b = 0 then
      .ok .Sponsored
    else if b = 1 then
      if data.length < 41 then
        .error .InvalidPaymasterData
      else
        .ok (.TokenPayment (rest.take 32) (u64_from_le ((data.drop 33).take 8)))
    else
      .error .InvalidPaymasterData

/-- `handle_successful_operation` (mode `OpSucceeded`): sponsored operations
add `actual_gas_cost` to `total_sponsored`; token payments add the full
`pre_charge` to the first matching token's `total_collected`, and only when
the context carries a token account. No refund is computed on this path. -/
def handle_successful_operation (paymaster : Paymaster)
    (context : PaymentContext) (actual_gas_cost : Nat) : Paymaster :=
  match context.payment_method with
  | .Sponsored =>
    { paymaster with total_sponsored := paymaster.total_sponsored + actual_gas_cost }
  | .TokenPayment token_mint _ =>
    match context.token_account with
    | some _ =>
      { paymaster with
          supported_tokens :=
            update_first (fun t => t.mint == token_mint)
              (fun t => { t with total_collected := t.total_collected + context.pre_charge })
              paymaster.supported_tokens }
    | none => paymaster

/-- `handle_reverted_operation` (mode `OpReverted`): sponsored operations add
`actual_gas_cost` to `total_sponsored`; token payments charge
`tokens_for_gas = actual_gas_cost * rate_per_lamport` against the first
matching token and compute `refund = pre_charge.saturating_sub(tokens_for_gas)`
(`Nat` subtraction is saturating). The refund is returned alongside the
state, standing for the amount the source logs as owed back to the user. -/
def handle_reverted_operation (paymaster : Paymaster)
    (context : PaymentContext) (actual_gas_cost : Nat) : Paymaster × Nat :=
  match context.payment_method with
  | .Sponsored =>
    ({ paymaster with total_sponsored := paymaster.total_sponsored + actual_gas_cost }, 0)
  | .TokenPayment token_mint _ =>
    match paymaster.supported_tokens.find? (fun t => t.mint == token_mint) with
    | none => (paymaster, 0)
    | some token_info =>
      let tokens_for_gas := actual_gas_cost * token_info.rate_per_lamport
      let refund := context.pre_charge - tokens_for_gas
      ({ paymaster with
           supported_tokens :=
             update_first (fun t => t.mint == token_mint)
               (fun t => { t with total_collected := t.total_collected + tokens_for_gas })
               paymaster.supported_tokens }, refund)

/-- `post_op`: dispatch on the mode (`PostOpReverted` performs no
accounting), then count the operation. Returns the updated paymaster and the
refund owed back to the user (0 wherever the source computes none). -/
def post_op (paymaster : Paymaster) (mode : PostOpMode)
    (context : PaymentContext) (actual_gas_cost : Nat) : Paymaster × Nat :=
  let r :=
    match mode with
    | .OpSucceeded => (handle_successful_operation paymaster context actual_gas_cost, 0)
    | .OpReverted => handle_reverted_operation paymaster context actual_gas_cost
    | .PostOpReverted => (paymaster, 0)
  ({ r.1 with total_operations := r.1.total_operations + 1 }, r.2)

end NexusPaymaster

namespace NexusBridge

/-- `BridgeError` from `programs/bridge/src/lib.rs`. -/
inductive BridgeError where
  | InvalidThreshold
  | InsufficientValidators
  | TooManyValidators
  | TooManyChains
  | BridgePaused
  | UnsupportedChain
  | InvalidAmount
  | MissingTokenAccount
  | MissingBridgeTokenAccount
  | MissingTokenProgram
  | MissingMintAccount
  | MissingRecipientAccount
  | InsufficientSignatures
  | InsufficientValidSignatures
  | AlreadyMinted
  | InvalidSignature
deriving DecidableEq, Repr

/-- `ChainType`. -/
inductive ChainType where
  | Evm
  | Svm
deriving DecidableEq, Repr

/-- `SupportedChain` registry entry. -/
structure SupportedChain where
  chain_id : Nat
  chain_type : ChainType
  bridge_address : List Nat
  min_confirmations : Nat
  is_active : Bool
  total_volume : Nat
deriving DecidableEq, Repr

/-- The `Bridge` account. -/
structure Bridge where
  authority : Pubkey
  validators : List Pubkey
  threshold : Nat
  nonce : Nat
  total_locked : Nat
  total_minted : Nat
  is_paused : Bool
  supported_chains : List SupportedChain
deriving DecidableEq, Repr

/-- `LockRecord` account data. -/
structure LockRecord where
  id : Nat
  user : Pubkey
  token_mint : Option Pubkey
  amount : Nat
  destination_chain : Nat
  destination_address : List Nat
  timestamp : Int
  is_claimed : Bool
  claim_tx_hash : Option (List Nat)
deriving DecidableEq, Repr

/-- `MintRecord` account data. -/
structure MintRecord where
  lock_id : Nat
  source_chain : Nat
  source_tx_hash : List Nat
  recipient : Pubkey
  token_mint : Option Pubkey
  amount : Nat
  timestamp : Int
  is_minted : Bool
deriving DecidableEq, Repr

/-- `BurnRecord` account data. -/
structure BurnRecord where
  id : Nat
  user : Pubkey
  token_mint : Pubkey
  amount : Nat
  destination_chain : Nat
  destination_address : List Nat
  timestamp : Int
  is_claimed : Bool
  claim_tx_hash : Option (List Nat)
deriving DecidableEq, Repr

/-- The bridge program state visible to its instructions: the `Bridge`
account plus the three keyed record families. Records live at deterministic
program-derived addresses; each family is modelled as an association list in
which the most recent write to a key shadows older entries. -/
structure BridgeLedger where
  bridge : Bridge
  lock_records : List (Nat × LockRecord)
  mint_records : List (List Nat × MintRecord)
  burn_records : List (Nat × BurnRecord)
deriving DecidableEq, Repr

/-- Look a key up in a keyed record family (newest write first). -/
def lookup_record [BEq κ] (records : List (κ × α)) (key : κ) : Option α :=
  (records.find? (fun p => p.1 == key)).map Prod.snd

/-- Write a record at a key (the new entry shadows any older one). -/
def set_record (records : List (κ × α)) (key : κ) (value : α) : List (κ × α) :=
  (key, value) :: records

/-- The `mint_record` address seeds from the `MintTokens` accounts struct:
`[b"mint", &lock_id.to_le_bytes()[..4], &source_chain.to_le_bytes()[..4]]` —
only the first four little-endian bytes of each `u64` enter the key. The
constant `"mint"` tag, shared by every key of this family, is omitted. -/
def mint_record_key (lock_id source_chain : Nat) : List Nat :=
  (le64 lock_id).take 4 ++ (le64 source_chain).take 4

/-- Modelled from the spec: the declarative account resolution of the
`mint_record` account (Anchor's `#[account(init, seeds = ..)]` attribute in
the `MintTokens` struct) is not handler-body code; the spec says
`mint_tokens` "Looks up (or creates) the MintRecord keyed by
`(lock_id, source_chain)`". A record not present at the derived address is
created zero-initialized, in particular with `is_minted = false`. -/
def get_mint_record (st : BridgeLedger) (key : List Nat) : MintRecord :=
  (lookup_record st.mint_records key).getD
    { lock_id := 0, source_chain := 0, source_tx_hash := [], recipient := []
      token_mint := none, amount := 0, timestamp := 0, is_minted := false }

/-- Is `chain_id` registered and active on the bridge? -/
def chain_supported (bridge : Bridge) (chain_id : Nat) : Bool :=
  bridge.supported_chains.any (fun c => c.chain_id == chain_id && c.is_active)

/-- Add `amount` to the volume counter of the first registry entry for
`chain_id` (the `iter_mut().find(..)` update shared by lock/mint/burn). -/
def bump_chain_volume (chains : List SupportedChain) (chain_id : Nat)
    (amount : Nat) : List SupportedChain :=
  update_first (fun c => c.chain_id == chain_id)
    (fun c => { c with total_volume := c.total_volume + amount }) chains

/-- The settlement message slices hashed for validator signing:
`[le64(lock_id), le64(source_chain), source_tx_hash, recipient,
token_mint or 32 zero bytes, le64(amount)]`. The source feeds these slices
to `hashv` and verifies signatures against the digest; since both the hash
and the verifier are external primitives (the source stubs the verifier),
the embedding hands the pre-image slices to the verification oracle. -/
def mint_message (lock_id source_chain : Nat) (source_tx_hash : List Nat)
    (recipient : Pubkey) (token_mint : Option Pubkey) (amount : Nat) :
    List (List Nat) :=
  [le64 lock_id, le64 source_chain, source_tx_hash, recipient,
   token_mint.getD (List.replicate 32 0), le64 amount]

/-- The bridge program's `verify_signature` helper, exactly as in the
source: a stub that accepts every signature. -/
def verify_signature (_message : List (List Nat)) (_signature : Sig)
    (_validator : Pubkey) : Bool :=
  true

/-- The signature-counting loop of `mint_tokens`: the signature at position
`i` is paired with the validator at index `i`; positions at or beyond the
validator list length contribute nothing (`List.zip` truncates). -/
def count_valid_signatures (vf : List (List Nat) → Sig → Pubkey → Bool)
    (message : List (List Nat)) (signatures : List Sig)
    (validators : List Pubkey) : Nat :=
  (signatures.zip validators).countP (fun p => vf message p.1 p.2)

/-- Presence flags for the optional accounts of the `MintTokens` context. -/
structure MintTokenAccounts where
  recipient_token_account : Bool
  mint_account : Bool
  token_program : Bool
  recipient_account : Bool
deriving DecidableEq, Repr

/-- Final segment of `mint_tokens` once every guard has passed: write the
mint record with `is_minted = true`, add the amount to `total_minted` and to
the source chain's volume. -/
def record_mint (st : BridgeLedger) (lock_id source_chain : Nat)
    (source_tx_hash : List Nat) (recipient : Pubkey)
    (token_mint : Option Pubkey) (amount : Nat) (now : Int) :
    BridgeLedger × Option BridgeError :=
  let mint_record : MintRecord :=
    { lock_id := lock_id, source_chain := source_chain
      source_tx_hash := source_tx_hash, recipient := recipient
      token_mint := token_mint, amount := amount, timestamp := now
      is_minted := true }
  ({ st with
       bridge :=
         { st.bridge with
             total_minted := st.bridge.total_minted + amount
             supported_chains :=
               bump_chain_volume st.bridge.supported_chains source_chain amount }
       mint_records :=
         set_record st.mint_records (mint_record_key lock_id source_chain)
           mint_record }, none)

/-- `mint_tokens`: pause guard, raw signature count against the threshold,
source-chain registry check, index-aligned signature verification and quorum
check, replay guard on the mint record, asset release (SPL mint or native
transfer — external primitives, with the optional-account presence checks of
the source), then record the mint and update the totals. `vf` is the
signature-verification oracle; the deployed program instantiates it with the
stub `verify_signature`. -/
def mint_tokens (vf : List (List Nat) → Sig → Pubkey → Bool)
    (st : BridgeLedger) (lock_id source_chain : Nat)
    (source_tx_hash : List Nat) (recipient : Pubkey)
    (token_mint : Option Pubkey) (amount : Nat)
    (validator_signatures : List Sig) (accounts : MintTokenAccounts)
    (now : Int) : BridgeLedger × Option BridgeError :=
  if st.bridge.is_paused then
    (st, some .BridgePaused)
  else if validator_signatures.length < st.bridge.threshold then
    (st, some .InsufficientSignatures)
  else if ¬ chain_supported st.bridge source_chain then
    (st, some .UnsupportedChain)
  else
    let message := mint_message lock_id source_chain source_tx_hash recipient token_mint amount
    let valid_signatures :=
      count_valid_signatures vf message validator_signatures st.bridge.validators
    if valid_signatures < st.bridge.threshold then
      (st, some .InsufficientValidSignatures)
    else if (get_mint_record st (mint_record_key lock_id source_chain)).is_minted then
      (st, some .AlreadyMinted)
    else
      match token_mint with
      | some _ =>
        if ¬ accounts.recipient_token_account then
          (st, some .MissingTokenAccount)
        else if ¬ accounts.token_program then
          (st, some .MissingTokenProgram)
        else if ¬ accounts.mint_account then
          (st, some .MissingMintAccount)
        else
          record_mint st lock_id source_chain source_tx_hash recipient token_mint amount now
      | none =>
        if ¬ accounts.recipient_account then
          (st, some .MissingRecipientAccount)
        else
          record_mint st lock_id source_chain source_tx_hash recipient token_mint amount now

/-- Presence flags for the optional accounts of the `LockTokens` context. -/
structure LockTokenAccounts where
  user_token_account : Bool
  bridge_token_account : Bool
  token_program : Bool
deriving DecidableEq, Repr

/-- Final segment of `lock_tokens`: write the lock record and update
`total_locked` and the destination chain's volume. -/
def record_lock (st : BridgeLedger) (lock_id : Nat) (user : Pubkey)
    (token_mint : Option Pubkey) (amount destination_chain : Nat)
    (destination_address : List Nat) (now : Int) :
    BridgeLedger × Option BridgeError :=
  let lock_record : LockRecord :=
    { id := lock_id, user := user, token_mint := token_mint, amount := amount
      destination_chain := destination_chain
      destination_address := destination_address, timestamp := now
      is_claimed := false, claim_tx_hash := none }
  ({ st with
       bridge :=
         { st.bridge with
             total_locked := st.bridge.total_locked + amount
             supported_chains :=
               bump_chain_volume st.bridge.supported_chains destination_chain amount }
       lock_records := set_record st.lock_records lock_id lock_record }, none)

/-- `lock_tokens`: pause guard, destination-chain check, `lock_id`
assignment from the bridge nonce (incremented before any fallible step, so
the bump is visible even on the missing-account error paths), escrow of the
asset (an external transfer primitive), lock-record creation and counter
updates. -/
def lock_tokens (st : BridgeLedger) (user : Pubkey)
    (amount destination_chain : Nat) (destination_address : List Nat)
    (token_mint : Option Pubkey) (accounts : LockTokenAccounts) (now : Int) :
    BridgeLedger × Option BridgeError :=
  if st.bridge.is_paused then
    (st, some .BridgePaused)
  else if ¬ chain_supported st.bridge destination_chain then
    (st, some .UnsupportedChain)
  else
    let lock_id := st.bridge.nonce
    let st := { st with bridge := { st.bridge with nonce := st.bridge.nonce + 1 } }
    match token_mint with
    | some _ =>
      if ¬ accounts.user_token_account then
        (st, some .MissingTokenAccount)
      else if ¬ accounts.bridge_token_account then
        (st, some .MissingBridgeTokenAccount)
      else if ¬ accounts.token_program then
        (st, some .MissingTokenProgram)
      else
        record_lock st lock_id user token_mint amount destination_chain destination_address now
    | none =>
      if amount = 0 then
        (st, some .InvalidAmount)
      else
        record_lock st lock_id user token_mint amount destination_chain destination_address now

/-- `burn_tokens`: pause guard, destination-chain check, `burn_id`
assignment from the same nonce sequence as locks, burn of the asset (an
external primitive; the accounts of the `BurnTokens` context are all
required, so there are no missing-account paths), burn-record creation and
destination-chain volume update (`total_locked`/`total_minted` untouched). -/
def burn_tokens (st : BridgeLedger) (user : Pubkey)
    (amount destination_chain : Nat) (destination_address : List Nat)
    (token_mint : Pubkey) (now : Int) : BridgeLedger × Option BridgeError :=
  if st.bridge.is_paused then
    (st, some .BridgePaused)
  else if ¬ chain_supported st.bridge destination_chain then
    (st, some .UnsupportedChain)
  else
    let burn_id := st.bridge.nonce
    let st := { st with bridge := { st.bridge with nonce := st.bridge.nonce + 1 } }
    let burn_record : BurnRecord :=
      { id := burn_id, user := user, token_mint := token_mint, amount := amount
        destination_chain := destination_chain
        destination_address := destination_address, timestamp := now
        is_claimed := false, claim_tx_hash := none }
    ({ st with
         bridge :=
           { st.bridge with
               supported_chains :=
                 bump_chain_volume st.bridge.supported_chains destination_chain amount }
         burn_records := set_record st.burn_records burn_id burn_record }, none)

/-- `add_supported_chain`: authority-gated registry append (≤ 50 entries),
new entries active with zero volume. -/
def add_supported_chain (st : BridgeLedger) (chain_id : Nat)
    (chain_type : ChainType) (bridge_address : List Nat)
    (min_confirmations : Nat) : BridgeLedger × Option BridgeError :=
  if st.bridge.supported_chains.length ≥ 50 then
    (st, some .TooManyChains)
  else
    ({ st with
         bridge :=
           { st.bridge with
               supported_chains :=
                 st.bridge.supported_chains ++
                   [{ chain_id := chain_id, chain_type := chain_type
                      bridge_address := bridge_address
                      min_confirmations := min_confirmations
                      is_active := true, total_volume := 0 }] }, }, none)

/-- `set_paused`: authority-gated pause flag update. -/
def set_paused (st : BridgeLedger) (is_paused : Bool) :
    BridgeLedger × Option BridgeError :=
  ({ st with bridge := { st.bridge with is_paused := is_paused } }, none)

/-- `update_validators`: authority-gated validator-set replacement with the
same sanity checks as at initialization. -/
def update_validators (st : BridgeLedger) (new_validators : List Pubkey)
    (new_threshold : Nat) : BridgeLedger × Option BridgeError :=
  if new_threshold = 0 then
    (st, some .InvalidThreshold)
  else if new_validators.length < new_threshold then
    (st, some .InsufficientValidators)
  else if new_validators.length > 20 then
    (st, some .TooManyValidators)
  else
    ({ st with
         bridge :=
           { st.bridge with validators := new_validators, threshold := new_threshold } },
     none)

/-- One invocation of any state-mutating bridge instruction on an existing
ledger (`initialize_bridge` only ever creates a fresh bridge account — the
`init` constraint forbids re-running it on an existing one — so it is not a
step on an existing ledger). -/
inductive BridgeOp where
  | lock (user : Pubkey) (amount destination_chain : Nat)
      (destination_address : List Nat) (token_mint : Option Pubkey)
      (accounts : LockTokenAccounts) (now : Int)
  | mint (vf : List (List Nat) → Sig → Pubkey → Bool)
      (lock_id source_chain : Nat) (source_tx_hash : List Nat)
      (recipient : Pubkey) (token_mint : Option Pubkey) (amount : Nat)
      (validator_signatures : List Sig) (accounts : MintTokenAccounts) (now : Int)
  | burn (user : Pubkey) (amount destination_chain : Nat)
      (destination_address : List Nat) (token_mint : Pubkey) (now : Int)
  | addChain (chain_id : Nat) (chain_type : ChainType)
      (bridge_address : List Nat) (min_confirmations : Nat)
  | setPaused (is_paused : Bool)
  | updateValidators (new_validators : List Pubkey) (new_threshold : Nat)

/-- The ledger state after one bridge instruction (successful or not —
a failing call leaves exactly the mutations its body performed before the
failing guard, as in each instruction's embedding). -/
def bridge_step (op : BridgeOp) (st : BridgeLedger) : BridgeLedger :=
  match op with
  | .lock user amount dc da tm accounts now =>
    (lock_tokens st user amount dc da tm accounts now).1
  | .mint vf lid sc tx r tm amount sigs accounts now =>
    (mint_tokens vf st lid sc tx r tm amount sigs accounts now).1
  | .burn user amount dc da tm now =>
    (burn_tokens st user amount dc da tm now).1
  | .addChain cid ct ba mc =>
    (add_supported_chain st cid ct ba mc).1
  | .setPaused b => (set_paused st b).1
  | .updateValidators vs t => (update_validators st vs t).1

end NexusBridge

/-!  Concrete fixtures used to instantiate the claim theorems. -/

/-- The identity function standing in for the hash primitive at concrete
instantiations (any function works; the theorems quantify over it). -/
def H_id : List Nat → List Nat := fun l => l

/-- A concrete user operation. -/
def user_op_a : UserOperation :=
  { sender := [1], nonce := 0, init_code := [], call_data := [3, 4]
    call_gas_limit := 7, verification_gas_limit := 0, pre_verification_gas := 0
    max_fee_per_gas := 20, max_priority_fee_per_gas := 0
    paymaster_and_data := [], signature := [] }

/-- `user_op_a` with every field outside the canonical hash changed. -/
def user_op_b : UserOperation :=
  { sender := [1], nonce := 0, init_code := [11], call_data := [3, 4]
    call_gas_limit := 7, verification_gas_limit := 99, pre_verification_gas := 98
    max_fee_per_gas := 20, max_priority_fee_per_gas := 97
    paymaster_and_data := [5, 6], signature := [8] }

/-- A wallet at nonce 5, not frozen. -/
def wallet_n5 : NexusWallet.Wallet :=
  { owner := [1], recovery_hash := [], daily_limit := 100, daily_spent := 0
    last_reset := 0, nonce := 5, initialized := true, is_frozen := false
    guardians := [], pending_recovery := none }

/-- A wallet with `daily_limit = 100`, `daily_spent = 90`, `last_reset = 0`. -/
def wallet_spent90 : NexusWallet.Wallet :=
  { owner := [1], recovery_hash := [], daily_limit := 100, daily_spent := 90
    last_reset := 0, nonce := 0, initialized := true, is_frozen := false
    guardians := [], pending_recovery := none }

/-- Four-guardian wallet with a pending recovery already approved twice. -/
def wallet_recovery2 : NexusWallet.Wallet :=
  { owner := [1], recovery_hash := [], daily_limit := 100, daily_spent := 0
    last_reset := 0, nonce := 0, initialized := true, is_frozen := false
    guardians := [[1], [2], [3], [4]]
    pending_recovery := some { new_owner := [9], guardian_approvals := [[1], [2]], initiated_at := 0 } }

/-- Four-guardian wallet with a pending recovery approved once. -/
def wallet_recovery1 : NexusWallet.Wallet :=
  { owner := [1], recovery_hash := [], daily_limit := 100, daily_spent := 0
    last_reset := 0, nonce := 0, initialized := true, is_frozen := false
    guardians := [[1], [2], [3], [4]]
    pending_recovery := some { new_owner := [9], guardian_approvals := [[1]], initiated_at := 0 } }

/-- A paymaster supporting one token: mint `[7]`, `rate_per_lamport = 5`. -/
def paymaster_rate5 : NexusPaymaster.Paymaster :=
  { owner := [1], entry_point := [2]
    config := { max_operations_per_hour := 0, max_cost_per_operation := 0
                allowed_users := [], rate_limit_per_user := 0
                require_pre_deposit := false }
    total_sponsored := 0, total_operations := 0, is_active := true
    supported_tokens := [{ mint := [7], rate_per_lamport := 5, oracle := none
                           is_active := true, total_collected := 0 }] }

/-- A token-payment context with `pre_charge = 500` and a token account. -/
def context_pre500 : NexusPaymaster.PaymentContext :=
  { payment_method := .TokenPayment [7] 500, user := [3], pre_charge := 500
    token_account := some [9] }

/-- An entry point with 10 operations already counted. -/
def entry_point_fx : NexusEntryPoint.EntryPoint :=
  { authority := [0], total_operations := 10, total_paymasters := 0
    min_stake := 0, unstake_delay := 0 }

/-- A user operation with the given `call_gas_limit` (and nonzero fee). -/
def op_with_gas (cgl : Nat) : UserOperation :=
  { sender := [1], nonce := 0, init_code := [], call_data := []
    call_gas_limit := cgl, verification_gas_limit := 0, pre_verification_gas := 0
    max_fee_per_gas := 1, max_priority_fee_per_gas := 0
    paymaster_and_data := [], signature := [] }

/-- An active registered chain with id 5. -/
def chain5 : NexusBridge.SupportedChain :=
  { chain_id := 5, chain_type := .Evm, bridge_address := []
    min_confirmations := 0, is_active := true, total_volume := 0 }

/-- A bridge with three validators and `threshold = 2`, chain 5 registered. -/
def ledger_3v : NexusBridge.BridgeLedger :=
  { bridge := { authority := [0], validators := [[1], [2], [3]], threshold := 2
                nonce := 0, total_locked := 0, total_minted := 0
                is_paused := false, supported_chains := [chain5] }
    lock_records := [], mint_records := [], burn_records := [] }

/-- A bridge with a single validator and `threshold = 1`, chain 5 registered. -/
def ledger_1v : NexusBridge.BridgeLedger :=
  { bridge := { authority := [0], validators := [[1]], threshold := 1
                nonce := 0, total_locked := 0, total_minted := 0
                is_paused := false, supported_chains := [chain5] }
    lock_records := [], mint_records := [], burn_records := [] }

/-- `ledger_1v` after the successful native mint of 42 units for
`(lock_id, source_chain) = (0, 5)` to recipient `[2]`. -/
def ledger_1v_minted : NexusBridge.BridgeLedger :=
  { bridge := { authority := [0], validators := [[1]], threshold := 1
                nonce := 0, total_locked := 0, total_minted := 42
                is_paused := false
                supported_chains := [{ chain_id := 5, chain_type := .Evm
                                       bridge_address := [], min_confirmations := 0
                                       is_active := true, total_volume := 42 }] }
    lock_records := []
    mint_records := [([0, 0, 0, 0, 5, 0, 0, 0],
                      { lock_id := 0, source_chain := 5, source_tx_hash := []
                        recipient := [2], token_mint := none, amount := 42
                        timestamp := 0, is_minted := true })]
    burn_records := [] }

/-- A verification oracle accepting a signature iff its bytes equal the
validator's key bytes (so validity can be steered per position). -/
def vf_match : List (List Nat) → Sig → Pubkey → Bool := fun _ sg v => sg == v

/-- A verification oracle accepting everything, as the source stub does. -/
def vf_all : List (List Nat) → Sig → Pubkey → Bool := fun _ _ _ => true

/-- Mint accounts for the native path (only the recipient account present). -/
def accounts_native : NexusBridge.MintTokenAccounts :=
  { recipient_token_account := false, mint_account := false
    token_program := false, recipient_account := true }

/-!  Helper lemmas. -/

/-- `find?` jumps over a prefix on which the predicate is false and returns
the first hit. -/
theorem find?_prefix_none (p : α → Bool) (l1 l2 : List α) (x : α)
    (h1 : ∀ a ∈ l1, p a = false) (h2 : p x = true) :
    (l1 ++ x :: l2).find? p = some x := by
  induction l1 with
  | nil => rw [List.nil_append, List.find?_cons_of_pos _ h2]
  | cons a l ih =>
    have ha : p a = false := h1 a (by simp)
    rw [List.cons_append, List.find?_cons_of_neg _ (by simp [ha])]
    exact ih (fun b hb => h1 b (by simp [hb]))

/-- `update_first` rewrites exactly the first hit and nothing else. -/
theorem update_first_prefix_none (p : α → Bool) (f : α → α) (l1 l2 : List α)
    (x : α) (h1 : ∀ a ∈ l1, p a = false) (h2 : p x = true) :
    update_first p f (l1 ++ x :: l2) = l1 ++ f x :: l2 := by
  induction l1 with
  | nil => simp [update_first, h2]
  | cons a l ih =>
    have ha : p a = false := h1 a (by simp)
    simp [update_first, ha]
    exact ih (fun b hb => h1 b (by simp [hb]))

/-- Counting matches over `zip` equals counting over the index range up to
the shorter length, pairing position `i` with position `i`. -/
theorem countP_zip_eq_countP_range (f : α → β → Bool) (da : α) (db : β) :
    ∀ (xs : List α) (ys : List β),
      (xs.zip ys).countP (fun p => f p.1 p.2) =
        (List.range (min xs.length ys.length)).countP
          (fun i => f (xs.getD i da) (ys.getD i db))
  | [], ys => by simp
  | x :: xs, [] => by simp
  | x :: xs, y :: ys => by
    have ih := countP_zip_eq_countP_range f da db xs ys
    simp only [List.zip_cons_cons, List.countP_cons, List.length_cons,
      Nat.succ_min_succ, List.range_succ_eq_map, List.countP_map]
    simp only [List.getD_cons_zero, List.getD_cons_succ, Function.comp_def]
    rw [ih]

/-- `lookup_record` after `set_record`: the written key reads back the new
value, every other key is untouched. -/
theorem lookup_record_set_record [BEq κ] (records : List (κ × α))
    (key key2 : κ) (v : α) :
    NexusBridge.lookup_record (NexusBridge.set_record records key v) key2 =
      if key == key2 then some v
      else NexusBridge.lookup_record records key2 := by
  cases h : key == key2 <;>
    simp [NexusBridge.lookup_record, NexusBridge.set_record,
      List.find?_cons_of_pos, List.find?_cons_of_neg, h]

namespace NexusBridge

/-- Reading any key after `record_mint`: the freshly written key returns the
new minted record, all other keys read as before. -/
theorem get_mint_record_record_mint (st : BridgeLedger) (l s : Nat)
    (tx : List Nat) (r : Pubkey) (tm : Option Pubkey) (a : Nat) (now : Int)
    (key2 : List Nat) :
    get_mint_record (record_mint st l s tx r tm a now).1 key2 =
      if mint_record_key l s == key2 then
        { lock_id := l, source_chain := s, source_tx_hash := tx, recipient := r
          token_mint := tm, amount := a, timestamp := now, is_minted := true }
      else get_mint_record st key2 := by
  simp only [get_mint_record, record_mint, lookup_record_set_record]
  split <;> rfl

/-- `mint_tokens` either fails leaving the ledger unchanged, or passed every
guard (in particular the replay guard) and ran `record_mint`. -/
theorem mint_tokens_shape (vf : List (List Nat) → Sig → Pubkey → Bool)
    (st : BridgeLedger) (l s : Nat) (tx : List Nat) (r : Pubkey)
    (tm : Option Pubkey) (a : Nat) (sigs : List Sig)
    (acc : MintTokenAccounts) (now : Int) :
    (∃ e, mint_tokens vf st l s tx r tm a sigs acc now = (st, some e)) ∨
      (mint_tokens vf st l s tx r tm a sigs acc now =
          record_mint st l s tx r tm a now ∧
        (get_mint_record st (mint_record_key l s)).is_minted = false ∧
        count_valid_signatures vf (mint_message l s tx r tm a) sigs
            st.bridge.validators ≥ st.bridge.threshold) := by
  simp only [mint_tokens]
  repeat' split
  all_goals
    first
      | exact Or.inl ⟨_, rfl⟩
      | (refine Or.inr ⟨rfl, by simp_all, by omega⟩)

/-- A `mint_tokens` call against an already-minted record fails with
`AlreadyMinted` and leaves the ledger unchanged, no matter how many valid
signatures it supplies. -/
theorem mint_tokens_already_minted (vf : List (List Nat) → Sig → Pubkey → Bool)
    (st : BridgeLedger) (l s : Nat) (tx : List Nat) (r : Pubkey)
    (tm : Option Pubkey) (a : Nat) (sigs : List Sig)
    (acc : MintTokenAccounts) (now : Int)
    (hp : st.bridge.is_paused = false)
    (hc : chain_supported st.bridge s = true)
    (hn : sigs.length ≥ st.bridge.threshold)
    (hv : count_valid_signatures vf (mint_message l s tx r tm a) sigs
            st.bridge.validators ≥ st.bridge.threshold)
    (hm : (get_mint_record st (mint_record_key l s)).is_minted = true) :
    mint_tokens vf st l s tx r tm a sigs acc now = (st, some .AlreadyMinted) := by
  simp [mint_tokens, hp, hc, hm, Nat.not_lt.mpr hn, Nat.not_lt.mpr hv]

/-- `lock_tokens` never touches the mint-record family. -/
theorem lock_tokens_mint_records (st : BridgeLedger) (u : Pubkey)
    (a dc : Nat) (da : List Nat) (tm : Option Pubkey)
    (acc : LockTokenAccounts) (now : Int) :
    (lock_tokens st u a dc da tm acc now).1.mint_records = st.mint_records := by
  simp only [lock_tokens, record_lock]
  repeat' split
  all_goals rfl

/-- `burn_tokens` never touches the mint-record family. -/
theorem burn_tokens_mint_records (st : BridgeLedger) (u : Pubkey)
    (a dc : Nat) (da : List Nat) (tm : Pubkey) (now : Int) :
    (burn_tokens st u a dc da tm now).1.mint_records = st.mint_records := by
  simp only [burn_tokens]
  repeat' split
  all_goals rfl

/-- `add_supported_chain` never touches the mint-record family. -/
theorem add_supported_chain_mint_records (st : BridgeLedger) (cid : Nat)
    (ct : ChainType) (ba : List Nat) (mc : Nat) :
    (add_supported_chain st cid ct ba mc).1.mint_records = st.mint_records := by
  simp only [add_supported_chain]
  split
  all_goals rfl

/-- `set_paused` never touches the mint-record family. -/
theorem set_paused_mint_records (st : BridgeLedger) (b : Bool) :
    (set_paused st b).1.mint_records = st.mint_records := rfl

/-- `update_validators` never touches the mint-record family. -/
theorem update_validators_mint_records (st : BridgeLedger)
    (vs : List Pubkey) (t : Nat) :
    (update_validators st vs t).1.mint_records = st.mint_records := by
  simp only [update_validators]
  repeat' split
  all_goals rfl

/-- `get_mint_record` only depends on the mint-record family. -/
theorem get_mint_record_congr (st st2 : BridgeLedger) (key : List Nat)
    (h : st2.mint_records = st.mint_records) :
    get_mint_record st2 key = get_mint_record st key := by
  simp [get_mint_record, h]

/-- No bridge instruction ever turns `is_minted` off: once a key reads as
minted, it reads as minted after any further instruction. -/
theorem bridge_step_minted_mono (op : BridgeOp) (st : BridgeLedger)
    (key : List Nat) (h : (get_mint_record st key).is_minted = true) :
    (get_mint_record (bridge_step op st) key).is_minted = true := by
  cases op with
  | mint vf l s tx r tm a sigs acc now =>
    rcases mint_tokens_shape vf st l s tx r tm a sigs acc now with
      ⟨e, he⟩ | ⟨he, _, _⟩
    · simpa [bridge_step, he] using h
    · rw [bridge_step, he, get_mint_record_record_mint]
      split
      · rfl
      · exact h
  | lock u a dc da tm acc now =>
    rw [bridge_step,
      get_mint_record_congr st _ key (lock_tokens_mint_records st u a dc da tm acc now)]
    exact h
  | burn u a dc da tm now =>
    rw [bridge_step,
      get_mint_record_congr st _ key (burn_tokens_mint_records st u a dc da tm now)]
    exact h
  | addChain cid ct ba mc =>
    rw [bridge_step,
      get_mint_record_congr st _ key (add_supported_chain_mint_records st cid ct ba mc)]
    exact h
  | setPaused b =>
    rw [bridge_step,
      get_mint_record_congr st _ key (set_paused_mint_records st b)]
    exact h
  | updateValidators vs t =>
    rw [bridge_step,
      get_mint_record_congr st _ key (update_validators_mint_records st vs t)]
    exact h

/-- `bridge_step_minted_mono`, iterated along any instruction sequence. -/
theorem bridge_run_minted_mono (ops : List BridgeOp) :
    ∀ (st : BridgeLedger) (key : List Nat),
      (get_mint_record st key).is_minted = true →
      (get_mint_record (ops.foldl (fun t o => bridge_step o t) st) key).is_minted = true := by
  induction ops with
  | nil => intro st key h; exact h
  | cons op ops ih =>
    intro st key h
    exact ih (bridge_step op st) key (bridge_step_minted_mono op st key h)

end NexusBridge

/-!  Claim theorems. -/

/-- C6: the wallet program and the entry-point program compute the identical
canonical user-operation hash `H(sender ‖ le64(nonce) ‖ call_data ‖
le64(call_gas_limit) ‖ le64(max_fee_per_gas))`, over the fields in that
order, and the digest is independent of `verification_gas_limit`,
`pre_verification_gas`, `max_priority_fee_per_gas`, `paymaster_and_data`,
`init_code` and `signature` (two operations agreeing on the five hashed
fields may differ arbitrarily on the rest). -/
theorem c6_canonical_hash_agreement (H : List Nat → List Nat)
    (op op2 : UserOperation)
    (h1 : op.sender = op2.sender) (h2 : op.nonce = op2.nonce)
    (h3 : op.call_data = op2.call_data)
    (h4 : op.call_gas_limit = op2.call_gas_limit)
    (h5 : op.max_fee_per_gas = op2.max_fee_per_gas) :
    NexusWallet.calculate_user_op_hash H op =
      NexusEntryPoint.calculate_user_op_hash H op2 := by
  simp [NexusWallet.calculate_user_op_hash,
    NexusEntryPoint.calculate_user_op_hash, h1, h2, h3, h4, h5]

/-- Witness for C6: the two programs' hashes agree on two concrete
operations that differ in every field outside the canonical five. -/
theorem c6_canonical_hash_agreement_witness :
    NexusWallet.calculate_user_op_hash H_id user_op_a =
      NexusEntryPoint.calculate_user_op_hash H_id user_op_b :=
  c6_canonical_hash_agreement H_id user_op_a user_op_b rfl rfl rfl rfl rfl

/-- C9, counterexample: the claim states every truncated buffer fails with
`InvalidPaymasterData`, but the empty buffer — too short to contain even the
method tag — parses successfully as `Sponsored`. -/
theorem c9_parse_counterexample :
    NexusPaymaster.parse_paymaster_data [] = .ok .Sponsored ∧
      NexusPaymaster.parse_paymaster_data [] ≠
        .error NexusPaymaster.PaymasterError.InvalidPaymasterData := by
  exact ⟨rfl, fun h => Except.noConfusion h⟩

/-- C9, amended: a buffer whose byte 0 is 0 — and also the empty buffer —
parses to `Sponsored`; a buffer whose byte 0 is 1 with total length at least
41 parses to `TokenPayment` with the 32-byte mint at bytes 1..32 and the
little-endian amount at bytes 33..40; every other leading tag, and every
tag-1 buffer shorter than 41 bytes, fails with `InvalidPaymasterData`. -/
theorem c9_parse_amended (data : List Nat) :
    (data = [] → NexusPaymaster.parse_paymaster_data data = .ok .Sponsored) ∧
    (∀ rest, data = 0 :: rest →
      NexusPaymaster.parse_paymaster_data data = .ok .Sponsored) ∧
    (∀ rest, data = 1 :: rest → data.length < 41 →
      NexusPaymaster.parse_paymaster_data data =
        .error NexusPaymaster.PaymasterError.InvalidPaymasterData) ∧
    (∀ rest, data = 1 :: rest → 41 ≤ data.length →
      NexusPaymaster.parse_paymaster_data data =
        .ok (.TokenPayment (rest.take 32) (u64_from_le ((data.drop 33).take 8)))) ∧
    (∀ b rest, data = b :: rest → b ≠ 0 → b ≠ 1 →
      NexusPaymaster.parse_paymaster_data data =
        .error NexusPaymaster.PaymasterError.InvalidPaymasterData) := by
  refine ⟨?_, ?_, ?_, ?_, ?_⟩
  · intro h; subst h; rfl
  · intro rest h; subst h
    simp [NexusPaymaster.parse_paymaster_data]
  · intro rest h hlen; subst h
    simp only [List.length_cons] at hlen
    simp [NexusPaymaster.parse_paymaster_data]
    omega
  · intro rest h hlen; subst h
    simp only [List.length_cons] at hlen
    simp [NexusPaymaster.parse_paymaster_data]
    omega
  · intro b rest h hb0 hb1; subst h
    simp [NexusPaymaster.parse_paymaster_data, hb0, hb1]

/-- Witness for C9 (amended): leading tag 2 is rejected. -/
theorem c9_parse_amended_witness :
    NexusPaymaster.parse_paymaster_data [2] =
      .error NexusPaymaster.PaymasterError.InvalidPaymasterData :=
  (c9_parse_amended [2]).2.2.2.2 2 [] rfl (by decide) (by decide)

/-- C4, counterexample: the claim states that in `OpSucceeded` mode too the
charge recorded is `tokens_for_gas = actual_gas_cost * rate_per_lamport`
(300 at rate 5, gas 60) with refund 200; the code instead adds the full
`pre_charge` of 500 to `total_collected` and computes no refund there. -/
theorem c4_post_op_counterexample :
    ((NexusPaymaster.post_op paymaster_rate5 .OpSucceeded context_pre500
        60).1.supported_tokens.map (fun t => t.total_collected) ≠ [300]) ∧
    ((NexusPaymaster.post_op paymaster_rate5 .OpSucceeded context_pre500
        60).1.supported_tokens.map (fun t => t.total_collected) = [500]) ∧
    (NexusPaymaster.post_op paymaster_rate5 .OpSucceeded context_pre500 60).2 = 0 := by
  refine ⟨by decide, by decide, by decide⟩

/-- C4, amended: in `post_op` with a `TokenPayment` context naming a
supported token (and carrying a token account), `OpReverted` charges
`tokens_for_gas = actual_gas_cost * rate_per_lamport` to the token's
`total_collected` and owes `refund = pre_charge.saturating_sub(tokens_for_gas)`
back to the user, while `OpSucceeded` adds the full `pre_charge` to
`total_collected` and computes no refund. -/
theorem c4_post_op_amended (ts1 ts2 : List NexusPaymaster.SupportedToken)
    (tok : NexusPaymaster.SupportedToken) (pm : NexusPaymaster.Paymaster)
    (tm user : Pubkey) (mta pre : Nat) (acct : Pubkey) (actual : Nat)
    (hts : pm.supported_tokens = ts1 ++ tok :: ts2)
    (hpre : ∀ t ∈ ts1, t.mint ≠ tm) (htok : tok.mint = tm) :
    (NexusPaymaster.post_op pm .OpReverted
        ⟨.TokenPayment tm mta, user, pre, some acct⟩ actual =
      ({ pm with
           supported_tokens :=
             ts1 ++ { tok with
                        total_collected :=
                          tok.total_collected + actual * tok.rate_per_lamport } :: ts2
           total_operations := pm.total_operations + 1 },
       pre - actual * tok.rate_per_lamport)) ∧
    (NexusPaymaster.post_op pm .OpSucceeded
        ⟨.TokenPayment tm mta, user, pre, some acct⟩ actual =
      ({ pm with
           supported_tokens :=
             ts1 ++ { tok with total_collected := tok.total_collected + pre } :: ts2
           total_operations := pm.total_operations + 1 }, 0)) := by
  have hp1 : ∀ t ∈ ts1, (t.mint == tm) = false := by
    intro t ht
    exact beq_eq_false_iff_ne.mpr (hpre t ht)
  have hp2 : (tok.mint == tm) = true := beq_iff_eq.mpr htok
  have hfind := find?_prefix_none (fun t => t.mint == tm) ts1 ts2 tok hp1 hp2
  have hupd := update_first_prefix_none (fun t => t.mint == tm)
    (fun t => { t with
                  total_collected := t.total_collected + actual * tok.rate_per_lamport })
    ts1 ts2 tok hp1 hp2
  have hupd2 := update_first_prefix_none (fun t => t.mint == tm)
    (fun t => { t with total_collected := t.total_collected + pre })
    ts1 ts2 tok hp1 hp2
  constructor
  · simp only [NexusPaymaster.post_op, NexusPaymaster.handle_reverted_operation,
      hts, hfind, hupd]
  · simp only [NexusPaymaster.post_op, NexusPaymaster.handle_successful_operation,
      hts, hupd2]

/-- Witness for C4 (amended), at the claim's numbers: rate 5, pre-charge
500, actual gas 60 give charge 300 and refund 200 in `OpReverted`, and the
full 500 with no refund in `OpSucceeded`. -/
theorem c4_post_op_amended_witness :
    (NexusPaymaster.post_op paymaster_rate5 .OpReverted context_pre500 60).2 = 200 ∧
    ((NexusPaymaster.post_op paymaster_rate5 .OpReverted context_pre500
        60).1.supported_tokens.map (fun t => t.total_collected) = [300]) ∧
    (NexusPaymaster.post_op paymaster_rate5 .OpSucceeded context_pre500 60).2 = 0 := by
  have h := c4_post_op_amended [] []
    { mint := [7], rate_per_lamport := 5, oracle := none, is_active := true
      total_collected := 0 }
    paymaster_rate5 [7] [3] 500 500 [9] 60 rfl (by simp) rfl
  have hc : context_pre500 =
      ({ payment_method := .TokenPayment [7] 500, user := [3], pre_charge := 500
         token_account := some [9] } : NexusPaymaster.PaymentContext) := rfl
  refine ⟨?_, ?_, ?_⟩
  · rw [hc, h.1]
    rfl
  · rw [hc, h.1]
    rfl
  · rw [hc, h.2]

/-- C5, evaluation at the claim's failing input: in a batch of three
operations where operation 2 has `call_gas_limit = 0`, the pre-filter does
classify it `GasLimitExceeded`, and `total_operations` does grow by 3 — but
because `validate_user_operation` wraps that classification in `Ok` and
`process_user_operation` discards it with `?`, the operation is counted
successful: `successful_operations = 3` with three success events, not 2
with a failure event for operation 2 as the claim states. -/
theorem c5_batch_code_eval :
    (NexusEntryPoint.handle_ops entry_point_fx
        [op_with_gas 100, op_with_gas 0, op_with_gas 100] [5]).1.total_operations =
      entry_point_fx.total_operations + 3 ∧
    (NexusEntryPoint.handle_ops entry_point_fx
        [op_with_gas 100, op_with_gas 0, op_with_gas 100] [5]).2.1 = 3 ∧
    ((NexusEntryPoint.handle_ops entry_point_fx
        [op_with_gas 100, op_with_gas 0, op_with_gas 100] [5]).2.2.2.map
        (fun e => e.success) = [true, true, true]) ∧
    NexusEntryPoint.validate_user_operation (op_with_gas 0) =
      .ok .GasLimitExceeded := by
  refine ⟨by decide, by decide, by decide, rfl⟩

/-- C3: on a non-frozen wallet, `execute_user_operation` fails with
`InvalidNonce` exactly when `op.nonce ≠ wallet.nonce`; whenever the nonce
check passes, the returned wallet state carries `nonce + 1` regardless of
whether the call later fails (`DailyLimitExceeded` or `InvalidSignature`) or
succeeds — the increment is the replay-protection commit point. Stated over
an arbitrary hash primitive `H` and verification oracle `vf`, so both later
failure paths are live. -/
theorem c3_nonce_commit_point (H : List Nat → List Nat)
    (vf : List Nat → Sig → Pubkey → Bool) (w : NexusWallet.Wallet)
    (op : UserOperation) (pd : Option NexusWallet.PaymasterData) (now : Int)
    (hfz : w.is_frozen = false) :
    ((NexusWallet.execute_user_operation H vf w op pd now).2 =
        some .InvalidNonce ↔ op.nonce ≠ w.nonce) ∧
    (op.nonce = w.nonce →
      (NexusWallet.execute_user_operation H vf w op pd now).1.nonce = w.nonce + 1) := by
  by_cases hn : op.nonce = w.nonce
  · simp only [NexusWallet.execute_user_operation,
      NexusWallet.finish_user_operation, hfz, hn]
    cases pd <;> simp <;> repeat' split
    all_goals simp
  · simp only [NexusWallet.execute_user_operation, hfz, hn]
    simp [hn]

/-- Witness for C3: at a concrete non-frozen wallet at nonce 5, an operation
carrying nonce 0 is rejected with `InvalidNonce`. -/
theorem c3_nonce_commit_point_witness :
    (NexusWallet.execute_user_operation H_id
        (fun m sg pk => NexusWallet.verify_signature m sg pk)
        wallet_n5 user_op_a none 0).2 = some .InvalidNonce :=
  (c3_nonce_commit_point H_id
      (fun m sg pk => NexusWallet.verify_signature m sg pk)
      wallet_n5 user_op_a none 0 rfl).1.mpr (by decide)

/-- C7: on a non-frozen wallet with matching nonce and no paymaster data —
running the deployed program, i.e. the source's stub signature check — the
call first applies the rolling 24-hour window reset (`reset_window`), then
fails with `DailyLimitExceeded` exactly when the post-reset
`daily_spent + max_fee_per_gas` exceeds `daily_limit`, and otherwise
succeeds leaving `daily_spent` increased by `max_fee_per_gas` (and the nonce
bumped). -/
theorem c7_daily_limit_window (H : List Nat → List Nat)
    (w : NexusWallet.Wallet) (op : UserOperation) (now : Int)
    (hfz : w.is_frozen = false) (hn : op.nonce = w.nonce) :
    ((NexusWallet.execute_user_operation H
        (fun m sg pk => NexusWallet.verify_signature m sg pk)
        w op none now).2 = some .DailyLimitExceeded ↔
      w.daily_limit < (NexusWallet.reset_window w now).daily_spent + op.max_fee_per_gas) ∧
    ((NexusWallet.execute_user_operation H
        (fun m sg pk => NexusWallet.verify_signature m sg pk)
        w op none now).2 = none ↔
      (NexusWallet.reset_window w now).daily_spent + op.max_fee_per_gas ≤ w.daily_limit) ∧
    ((NexusWallet.execute_user_operation H
        (fun m sg pk => NexusWallet.verify_signature m sg pk)
        w op none now).2 = none →
      (NexusWallet.execute_user_operation H
          (fun m sg pk => NexusWallet.verify_signature m sg pk)
          w op none now).1 =
        { NexusWallet.reset_window w now with
            nonce := w.nonce + 1
            daily_spent :=
              (NexusWallet.reset_window w now).daily_spent + op.max_fee_per_gas }) := by
  simp only [NexusWallet.execute_user_operation, NexusWallet.finish_user_operation,
    NexusWallet.reset_window, NexusWallet.verify_signature, hfz, hn]
  cases w
  repeat' split
  all_goals simp_all

/-- Witness for C7, at the claim's numbers: `daily_limit = 100`,
`daily_spent = 90` with the window started at time 0; a fee-20 operation at
time 1 fails with `DailyLimitExceeded`, and the same operation at time 86400
succeeds leaving `daily_spent = 20`. -/
theorem c7_daily_limit_window_witness :
    (NexusWallet.execute_user_operation H_id
        (fun m sg pk => NexusWallet.verify_signature m sg pk)
        wallet_spent90 user_op_a none 1).2 = some .DailyLimitExceeded ∧
    (NexusWallet.execute_user_operation H_id
        (fun m sg pk => NexusWallet.verify_signature m sg pk)
        wallet_spent90 user_op_a none 86400).2 = none ∧
    (NexusWallet.execute_user_operation H_id
        (fun m sg pk => NexusWallet.verify_signature m sg pk)
        wallet_spent90 user_op_a none 86400).1.daily_spent = 20 := by
  have h1 := c7_daily_limit_window H_id wallet_spent90 user_op_a 1 rfl rfl
  have h2 := c7_daily_limit_window H_id wallet_spent90 user_op_a 86400 rfl rfl
  refine ⟨h1.1.mpr (by decide), h2.2.1.mpr (by decide), ?_⟩
  rw [h2.2.2 (h2.2.1.mpr (by decide))]
  rfl

/-- C8: a guardian registered on the wallet, with a recovery pending and not
yet among its approvals, has `approve_recovery` append the approval; when
the new approval count reaches `required = guardian_count / 2 + 1`, the
owner is replaced by `new_owner`, `pending_recovery` is cleared and the
nonce is incremented by 1 in the same call; below quorum, the owner and the
pending recovery (beyond the appended approval) and the nonce are
unchanged. -/
theorem c8_recovery_quorum (w : NexusWallet.Wallet) (g : Pubkey)
    (rec : NexusWallet.RecoveryRequest)
    (hg : w.guardians.contains g = true)
    (hp : w.pending_recovery = some rec)
    (hna : rec.guardian_approvals.contains g = false) :
    (NexusWallet.approve_recovery w g).2 = none ∧
    (w.guardians.length / 2 + 1 ≤ rec.guardian_approvals.length + 1 →
      (NexusWallet.approve_recovery w g).1.owner = rec.new_owner ∧
      (NexusWallet.approve_recovery w g).1.pending_recovery = none ∧
      (NexusWallet.approve_recovery w g).1.nonce = w.nonce + 1) ∧
    (rec.guardian_approvals.length + 1 < w.guardians.length / 2 + 1 →
      (NexusWallet.approve_recovery w g).1.owner = w.owner ∧
      (NexusWallet.approve_recovery w g).1.pending_recovery =
        some { rec with guardian_approvals := rec.guardian_approvals ++ [g] } ∧
      (NexusWallet.approve_recovery w g).1.nonce = w.nonce) := by
  simp only [NexusWallet.approve_recovery, hg, hp, hna]
  repeat' split
  all_goals simp_all

/-- Witness for C8: with 4 guardians the quorum is 3 — the third distinct
guardian's approval flips the owner to `[9]`, clears the pending recovery
and bumps the nonce, while a second approval leaves ownership untouched and
only appends to the approval list. -/
theorem c8_recovery_quorum_witness :
    (NexusWallet.approve_recovery wallet_recovery2 [3]).1.owner = [9] ∧
    (NexusWallet.approve_recovery wallet_recovery2 [3]).1.pending_recovery = none ∧
    (NexusWallet.approve_recovery wallet_recovery2 [3]).1.nonce = 1 ∧
    (NexusWallet.approve_recovery wallet_recovery1 [2]).1.owner = [1] ∧
    (NexusWallet.approve_recovery wallet_recovery1 [2]).1.pending_recovery =
      some { new_owner := [9], guardian_approvals := [[1], [2]], initiated_at := 0 } := by
  have h3 := c8_recovery_quorum wallet_recovery2 [3]
    { new_owner := [9], guardian_approvals := [[1], [2]], initiated_at := 0 }
    (by decide) rfl (by decide)
  have h2 := c8_recovery_quorum wallet_recovery1 [2]
    { new_owner := [9], guardian_approvals := [[1]], initiated_at := 0 }
    (by decide) rfl (by decide)
  obtain ⟨-, hq, -⟩ := h3
  obtain ⟨-, -, hu⟩ := h2
  obtain ⟨ho, hpr, hnn⟩ := hq (by decide)
  obtain ⟨ho2, hpr2, -⟩ := hu (by decide)
  exact ⟨ho, hpr, hnn, ho2, hpr2⟩

/-- C2: on a non-paused bridge, `mint_tokens` checks the signature at
position `i` only against the validator at index `i` (the verified count
ranges over indices below both list lengths, so positions beyond the
validator list contribute nothing); supplying fewer than `threshold`
signatures fails with `InsufficientSignatures`; supplying at least
`threshold` signatures of which fewer than `threshold` verify fails with
`InsufficientValidSignatures`; and the call succeeds only if at least
`threshold` signatures verify. Stated over an arbitrary verification oracle
`vf` standing for the external signature-check primitive. -/
theorem c2_threshold_enforcement
    (vf : List (List Nat) → Sig → Pubkey → Bool)
    (st : NexusBridge.BridgeLedger) (l s : Nat) (tx : List Nat) (r : Pubkey)
    (tm : Option Pubkey) (a : Nat) (sigs : List Sig)
    (acc : NexusBridge.MintTokenAccounts) (now : Int)
    (hp : st.bridge.is_paused = false) :
    (NexusBridge.count_valid_signatures vf (NexusBridge.mint_message l s tx r tm a)
        sigs st.bridge.validators =
      (List.range (min sigs.length st.bridge.validators.length)).countP
        (fun i => vf (NexusBridge.mint_message l s tx r tm a)
          (sigs.getD i []) (st.bridge.validators.getD i []))) ∧
    (sigs.length < st.bridge.threshold →
      NexusBridge.mint_tokens vf st l s tx r tm a sigs acc now =
        (st, some .InsufficientSignatures)) ∧
    (NexusBridge.chain_supported st.bridge s = true →
      st.bridge.threshold ≤ sigs.length →
      NexusBridge.count_valid_signatures vf (NexusBridge.mint_message l s tx r tm a)
          sigs st.bridge.validators < st.bridge.threshold →
      NexusBridge.mint_tokens vf st l s tx r tm a sigs acc now =
        (st, some .InsufficientValidSignatures)) ∧
    ((NexusBridge.mint_tokens vf st l s tx r tm a sigs acc now).2 = none →
      st.bridge.threshold ≤
        NexusBridge.count_valid_signatures vf (NexusBridge.mint_message l s tx r tm a)
          sigs st.bridge.validators) := by
  refine ⟨?_, ?_, ?_, ?_⟩
  · exact countP_zip_eq_countP_range
      (fun sg v => vf (NexusBridge.mint_message l s tx r tm a) sg v) [] []
      sigs st.bridge.validators
  · intro hlen
    simp [NexusBridge.mint_tokens, hp, hlen]
  · intro hc hlen hv
    simp [NexusBridge.mint_tokens, hp, hc, Nat.not_lt.mpr hlen, hv]
  · intro hnone
    rcases NexusBridge.mint_tokens_shape vf st l s tx r tm a sigs acc now with
      ⟨e, he⟩ | ⟨-, -, hv⟩
    · rw [he] at hnone
      simp at hnone
    · exact hv

/-- Witness for C2, at the spec's `n = 3, k = 2` example: three signatures
of which only the one at position 0 verifies fall below the quorum and fail
with `InsufficientValidSignatures`. -/
theorem c2_threshold_enforcement_witness :
    NexusBridge.mint_tokens vf_match ledger_3v 0 5 [] [2] none 7
        [[1], [9], [9]] accounts_native 0 =
      (ledger_3v, some .InsufficientValidSignatures) := by
  have h := c2_threshold_enforcement vf_match ledger_3v 0 5 [] [2] none 7
    [[1], [9], [9]] accounts_native 0 rfl
  exact h.2.2.1 (by decide) (by decide) (by decide)

/-- C1: once a `mint_tokens` call for a pair `(lock_id, source_chain)` has
succeeded, (i) `total_minted` grew by exactly that call's amount, (ii) after
any further sequence of bridge instructions the pair's record still reads
`is_minted = true` — no operation ever unsets it — and (iii) every later
`mint_tokens` call for the same pair fails with `AlreadyMinted` and leaves
the ledger unchanged, even when it supplies a full valid signature quorum,
so `total_minted` reflects exactly the one successful mint's amount for the
pair. -/
theorem c1_double_mint_freedom
    (vf : List (List Nat) → Sig → Pubkey → Bool)
    (st0 st1 : NexusBridge.BridgeLedger) (l s : Nat) (tx : List Nat)
    (r : Pubkey) (tm : Option Pubkey) (a : Nat) (sigs : List Sig)
    (acc : NexusBridge.MintTokenAccounts) (now : Int)
    (hsucc : NexusBridge.mint_tokens vf st0 l s tx r tm a sigs acc now = (st1, none)) :
    st1.bridge.total_minted = st0.bridge.total_minted + a ∧
    (∀ ops : List NexusBridge.BridgeOp,
      (NexusBridge.get_mint_record
          (ops.foldl (fun t o => NexusBridge.bridge_step o t) st1)
          (NexusBridge.mint_record_key l s)).is_minted = true) ∧
    (∀ (ops : List NexusBridge.BridgeOp)
        (vf2 : List (List Nat) → Sig → Pubkey → Bool) (tx2 : List Nat)
        (r2 : Pubkey) (tm2 : Option Pubkey) (a2 : Nat) (sigs2 : List Sig)
        (acc2 : NexusBridge.MintTokenAccounts) (now2 : Int),
      (ops.foldl (fun t o => NexusBridge.bridge_step o t) st1).bridge.is_paused = false →
      NexusBridge.chain_supported
          (ops.foldl (fun t o => NexusBridge.bridge_step o t) st1).bridge s = true →
      (ops.foldl (fun t o => NexusBridge.bridge_step o t) st1).bridge.threshold ≤
        sigs2.length →
      (ops.foldl (fun t o => NexusBridge.bridge_step o t) st1).bridge.threshold ≤
        NexusBridge.count_valid_signatures vf2
          (NexusBridge.mint_message l s tx2 r2 tm2 a2) sigs2
          (ops.foldl (fun t o => NexusBridge.bridge_step o t) st1).bridge.validators →
      NexusBridge.mint_tokens vf2
          (ops.foldl (fun t o => NexusBridge.bridge_step o t) st1)
          l s tx2 r2 tm2 a2 sigs2 acc2 now2 =
        (ops.foldl (fun t o => NexusBridge.bridge_step o t) st1,
         some .AlreadyMinted)) := by
  rcases NexusBridge.mint_tokens_shape vf st0 l s tx r tm a sigs acc now with
    ⟨e, he⟩ | ⟨he, -, -⟩
  · rw [he] at hsucc
    exact absurd (congrArg Prod.snd hsucc) (by simp)
  · rw [he] at hsucc
    have h1 : st1 = (NexusBridge.record_mint st0 l s tx r tm a now).1 := by
      rw [hsucc]
    have hm : (NexusBridge.get_mint_record st1
        (NexusBridge.mint_record_key l s)).is_minted = true := by
      rw [h1, NexusBridge.get_mint_record_record_mint]
      simp
    refine ⟨?_, ?_, ?_⟩
    · rw [h1]
      simp [NexusBridge.record_mint]
    · intro ops
      exact NexusBridge.bridge_run_minted_mono ops st1
        (NexusBridge.mint_record_key l s) hm
    · intro ops vf2 tx2 r2 tm2 a2 sigs2 acc2 now2 hp2 hc2 hlen2 hv2
      exact NexusBridge.mint_tokens_already_minted vf2 _ l s tx2 r2 tm2 a2
        sigs2 acc2 now2 hp2 hc2 hlen2 hv2
        (NexusBridge.bridge_run_minted_mono ops st1
          (NexusBridge.mint_record_key l s) hm)

/-- Witness for C1: a concrete successful native mint of 42 units for
`(0, 5)` on a one-validator bridge, after which the same call (with a full
valid quorum again) fails with `AlreadyMinted` and the bridge's
`total_minted` carries exactly the 42 of the one success. -/
theorem c1_double_mint_freedom_witness :
    NexusBridge.mint_tokens vf_all ledger_1v_minted 0 5 [] [2] none 42 [[0]]
        accounts_native 0 = (ledger_1v_minted, some .AlreadyMinted) ∧
    ledger_1v_minted.bridge.total_minted = ledger_1v.bridge.total_minted + 42 := by
  have h := c1_double_mint_freedom vf_all ledger_1v ledger_1v_minted 0 5 [] [2]
    none 42 [[0]] accounts_native 0 (by decide)
  refine ⟨?_, h.1⟩
  have h2 := h.2.2 [] vf_all [] [2] none 42 [[0]] accounts_native 0
    (by decide) (by decide) (by decide) (by decide)
  exact h2

/-- C10: the mint-record address key is built from only the first four
little-endian bytes of `lock_id` and of `source_chain`, so two pairs agree
on their key exactly when they are congruent modulo `2^32` in both
components; consequently, once a mint for one pair has set `is_minted`, a
`mint_tokens` call for any congruent pair — even a distinct one with a full
valid signature quorum — fails with `AlreadyMinted`. -/
theorem c10_truncated_mint_key_aliasing :
    (∀ l s l2 s2 : Nat,
      NexusBridge.mint_record_key l s = NexusBridge.mint_record_key l2 s2 ↔
        (l % 2 ^ 32 = l2 % 2 ^ 32 ∧ s % 2 ^ 32 = s2 % 2 ^ 32)) ∧
    (∀ (vf : List (List Nat) → Sig → Pubkey → Bool)
        (st : NexusBridge.BridgeLedger) (l s l2 s2 : Nat) (tx : List Nat)
        (r : Pubkey) (tm : Option Pubkey) (a : Nat) (sigs : List Sig)
        (acc : NexusBridge.MintTokenAccounts) (now : Int),
      l % 2 ^ 32 = l2 % 2 ^ 32 → s % 2 ^ 32 = s2 % 2 ^ 32 →
      (NexusBridge.get_mint_record st
          (NexusBridge.mint_record_key l s)).is_minted = true →
      st.bridge.is_paused = false →
      NexusBridge.chain_supported st.bridge s2 = true →
      st.bridge.threshold ≤ sigs.length →
      st.bridge.threshold ≤
        NexusBridge.count_valid_signatures vf
          (NexusBridge.mint_message l2 s2 tx r tm a) sigs st.bridge.validators →
      NexusBridge.mint_tokens vf st l2 s2 tx r tm a sigs acc now =
        (st, some .AlreadyMinted)) := by
  have hiff : ∀ l s l2 s2 : Nat,
      NexusBridge.mint_record_key l s = NexusBridge.mint_record_key l2 s2 ↔
        (l % 2 ^ 32 = l2 % 2 ^ 32 ∧ s % 2 ^ 32 = s2 % 2 ^ 32) := by
    intro l s l2 s2
    simp only [NexusBridge.mint_record_key, le64, List.take, List.cons_append,
      List.nil_append, List.cons.injEq, and_true]
    constructor
    · rintro ⟨h1, h2, h3, h4, h5, h6, h7, h8⟩
      omega
    · intro ⟨h1, h2⟩
      omega
  refine ⟨hiff, ?_⟩
  intro vf st l s l2 s2 tx r tm a sigs acc now hl hs hm hp hc hlen hv
  have hkey : NexusBridge.mint_record_key l2 s2 = NexusBridge.mint_record_key l s :=
    (hiff l2 s2 l s).mpr ⟨hl.symm, hs.symm⟩
  exact NexusBridge.mint_tokens_already_minted vf st l2 s2 tx r tm a sigs acc now
    hp hc hlen hv (by rw [hkey]; exact hm)

/-- Witness for C10: with `is_minted` set for `(0, 5)`, the congruent
distinct pair `(2^32, 5)` addresses the same record and is rejected with
`AlreadyMinted` despite its valid quorum. -/
theorem c10_truncated_mint_key_aliasing_witness :
    NexusBridge.mint_tokens vf_all ledger_1v_minted 4294967296 5 [] [2] none 7
        [[0]] accounts_native 0 = (ledger_1v_minted, some .AlreadyMinted) :=
  c10_truncated_mint_key_aliasing.2 vf_all ledger_1v_minted 0 5 4294967296 5
    [] [2] none 7 [[0]] accounts_native 0 (by decide) (by decide) (by decide)
    rfl (by decide) (by decide) (by decide)

end NexusSpec
